import Mathlib

/-
Shallow embedding of the two HTTP client modules of the Gc-KIT-Bus
repository: the frontend ApiClient together with its resource modules
(src/frontend/src/lib/api.ts), and the second standalone client module
(src/src/lib/api.ts).  Requests are modelled as pure request descriptions,
responses as a record of status, content type and (pre-parsed) body, and
each operation as the pair of the request it builds and the outcome
(returned value or raised error, resulting persisted store, navigation
side effect) computed from a given response.
-/

/-- JSON values: the result of parsing a response body, or the payload of a
request body before serialization. -/
inductive Json where
  | null : Json
  | bool : Bool → Json
  | num : Int → Json
  | str : String → Json
  | arr : List Json → Json
  | obj : List (String × Json) → Json

/-- JavaScript truthiness of a JSON value. -/
def jsTruthy : Json → Bool
  | Json.null => false
  | Json.bool b => b
  | Json.num n => decide (n ≠ 0)
  | Json.str s => decide (s ≠ "")
  | Json.arr _ => true
  | Json.obj _ => true

mutual

/-- JavaScript string coercion of a JSON value. -/
def jsToString : Json → String
  | Json.null => "null"
  | Json.bool b => if b then "true" else "false"
  | Json.num n => toString n
  | Json.str s => s
  | Json.arr xs => jsToStringList xs
  | Json.obj _ => "[object Object]"

/-- JavaScript array-to-string coercion: elements joined by commas, with
null rendered as the empty string, as Array.prototype.join does. -/
def jsToStringList : List Json → String
  | [] => ""
  | [Json.null] => ""
  | [x] => jsToString x
  | Json.null :: xs => "," ++ jsToStringList xs
  | x :: xs => jsToString x ++ "," ++ jsToStringList xs

end

/-- Reading the message property of a parsed body, as the source does with
error.message: reading a property of null raises a TypeError (returned as
the error case); objects yield their message field when present; every
other value yields undefined (returned as none). -/
def messageProp : Json → Except String (Option Json)
  | Json.null => Except.error "Cannot read properties of null"
  | Json.obj fields => Except.ok (fields.lookup "message")
  | _ => Except.ok none

/-- The message the source computes with error.message followed by the
fallback: a truthy message value is string-coerced, anything else falls
back to HTTP followed by the status code. -/
def extractedMessage (status : Nat) : Option Json → String
  | some v => if jsTruthy v then jsToString v else "HTTP " ++ toString status
  | none => "HTTP " ++ toString status

/-- Whether the pattern occurs as a contiguous run inside the list. -/
def containsSeq (pat : List Char) : List Char → Bool
  | [] => pat.isEmpty
  | c :: t => pat.isPrefixOf (c :: t) || containsSeq pat t

/-- String.prototype.includes, used by the source on the content type. -/
def includesSubstr (s pat : String) : Bool :=
  containsSeq pat.toList s.toList

/-- The persisted key-value store (localStorage) of the host environment. -/
abbrev Store := List (String × String)

/-- localStorage.getItem: the value at a key, when present. -/
def Store.getItem : Store → String → Option String
  | [], _ => none
  | (k0, v) :: t, k => if k0 = k then some v else Store.getItem t k

/-- localStorage.removeItem: drops every binding of the key. -/
def Store.removeItem : Store → String → Store
  | [], _ => []
  | (k0, v) :: t, k =>
      if k0 = k then Store.removeItem t k else (k0, v) :: Store.removeItem t k

/-- localStorage.setItem: binds the key to the value, replacing any
previous binding. -/
def Store.setItem (s : Store) (k v : String) : Store :=
  (k, v) :: Store.removeItem s k

/-- Errors a client call can raise: a plain Error, the ApiError class of
the sources (carrying an HTTP status), a TypeError from a bad property
access, or a SyntaxError from decoding a non-JSON body. -/
inductive JsError where
  | error : String → JsError
  | apiError : Nat → String → JsError
  | typeError : String → JsError
  | syntaxError : String → JsError

/-- The value a successful call resolves with: a decoded JSON body or the
raw response text. -/
inductive Value where
  | json : Json → Value
  | text : String → Value

/-- A request body: a JSON payload (JSON.stringify of the data) or
form-encoded fields (URLSearchParams). -/
inductive Body where
  | json : Json → Body
  | form : List (String × String) → Body

/-- Whether a request body is form-encoded. -/
def Body.isForm : Body → Bool
  | Body.form _ => true
  | Body.json _ => false

/-- The request a client operation hands to fetch. -/
structure Request where
  url : String
  method : String
  headers : List (String × String)
  body : Option Body

/-- The RequestInit options object the second module passes to its
apiRequest helper: any of method, headers and body may be present. -/
structure RequestOptions where
  method : Option String
  headers : Option (List (String × String))
  body : Option Body

/-- A fetch response: HTTP status and status text, the content-type
header, the result of response.json() when the body parses (none when
parsing would reject), and the raw text of the body. -/
structure Response where
  status : Nat
  statusText : String
  contentType : Option String
  jsonBody : Option Json
  textBody : String

/-- response.ok: status in the inclusive range 200 to 299. -/
def Response.ok (r : Response) : Bool :=
  decide (200 ≤ r.status ∧ r.status ≤ 299)

/-- The outcome of running a call against a given response: the value the
caller receives or the error raised to it, the persisted store afterwards,
and the navigation target assigned to window.location.href, if any. -/
structure Outcome where
  result : Except JsError Value
  store : Store
  navigation : Option String

/-- A full operation run: the request the operation issues and the outcome
it computes from the response. -/
structure OpResult where
  request : Request
  outcome : Outcome

/-
Frontend module, src/frontend/src/lib/api.ts: the ApiClient class.
-/

/-- The default header set of the frontend ApiClient constructor. -/
def ApiClient.defaultHeaders : List (String × String) :=
  [("Content-Type", "application/json")]

/-- ApiClient.getAuthHeaders: the default headers, extended with a bearer
Authorization header when the store holds a truthy token. -/
def ApiClient.getAuthHeaders (store : Store) : List (String × String) :=
  match Store.getItem store "token" with
  | some token =>
      if token = "" then ApiClient.defaultHeaders
      else ApiClient.defaultHeaders ++ [("Authorization", "Bearer " ++ token)]
  | none => ApiClient.defaultHeaders

/-- The error-path message of the two frontend handlers: the body is
parsed as JSON with the given fallback object on parse failure, then its
message property is read (which itself fails on a JSON null body) and
defaulted to HTTP plus the status. -/
def errorMessageFrom (fallback : String) (status : Nat) (jsonBody : Option Json) :
    Except String String :=
  match messageProp (jsonBody.getD (Json.obj [("message", Json.str fallback)])) with
  | Except.error m => Except.error m
  | Except.ok mv => Except.ok (extractedMessage status mv)

/-- The error a frontend handler raises on a non-2xx response: a TypeError
when the message extraction itself failed, else a plain Error with the
extracted message.  Never an ApiError. -/
def thrownErrorFrom (fallback : String) (r : Response) : Except JsError Value :=
  match errorMessageFrom fallback r.status r.jsonBody with
  | Except.error m => Except.error (JsError.typeError m)
  | Except.ok m => Except.error (JsError.error m)

/-- ApiClient.handleResponse success path: a content type containing
application/json decodes the body as JSON (rejecting on a non-JSON body),
any other or missing content type yields the raw text. -/
def ApiClient.successResult (r : Response) : Except JsError Value :=
  match r.contentType with
  | some ct =>
      if includesSubstr ct "application/json" then
        match r.jsonBody with
        | some j => Except.ok (Value.json j)
        | none => Except.error (JsError.syntaxError "Unexpected end of JSON input")
      else Except.ok (Value.text r.textBody)
  | none => Except.ok (Value.text r.textBody)

/-- The store after the 401 interceptor: on status 401 the token and user
keys are removed, otherwise the store is untouched. -/
def store401 (store : Store) (r : Response) : Store :=
  if r.status = 401 then Store.removeItem (Store.removeItem store "token") "user"
  else store

/-- The navigation side effect of the 401 interceptor: on status 401 the
location is set to the login page, otherwise no navigation occurs. -/
def nav401 (r : Response) : Option String :=
  if r.status = 401 then some "/login" else none

/-- ApiClient.handleResponse: on a 2xx response, the success result with
store and location untouched; on any other status, the 401 interceptor
runs and the extracted error is raised with fallback message Network
error. -/
def ApiClient.handleResponse (store : Store) (r : Response) : Outcome :=
  if r.ok = true then
    { result := ApiClient.successResult r, store := store, navigation := none }
  else
    { result := thrownErrorFrom "Network error" r
      store := store401 store r
      navigation := nav401 r }

/-- ApiClient.get: a GET request to the base URL plus endpoint with the
auth headers. -/
def ApiClient.get (baseURL : String) (store : Store) (endpoint : String) : Request :=
  { url := baseURL ++ endpoint
    method := "GET"
    headers := ApiClient.getAuthHeaders store
    body := none }

/-- ApiClient.post: a POST request with the auth headers and the JSON
serialization of the data when supplied. -/
def ApiClient.post (baseURL : String) (store : Store) (endpoint : String)
    (data : Option Json) : Request :=
  { url := baseURL ++ endpoint
    method := "POST"
    headers := ApiClient.getAuthHeaders store
    body := data.map Body.json }

/-- ApiClient.put: a PUT request with the auth headers and the JSON
serialization of the data when supplied. -/
def ApiClient.put (baseURL : String) (store : Store) (endpoint : String)
    (data : Option Json) : Request :=
  { url := baseURL ++ endpoint
    method := "PUT"
    headers := ApiClient.getAuthHeaders store
    body := data.map Body.json }

/-- ApiClient.delete: a DELETE request with the auth headers and no
body. -/
def ApiClient.delete (baseURL : String) (store : Store) (endpoint : String) : Request :=
  { url := baseURL ++ endpoint
    method := "DELETE"
    headers := ApiClient.getAuthHeaders store
    body := none }

/-
Frontend resource-module payload shapes and their serializations.
JSON.stringify serializes the fields of an object literal in declaration
order and omits fields that are undefined, so a Patch shape with optional
fields serializes only the fields that are present.
-/

/-- Helper: the field list contribution of a possibly-absent field. -/
def optField (k : String) : Option Json → List (String × Json)
  | some j => [(k, j)]
  | none => []

/-- The bus category tag of the frontend Bus shape. -/
inductive BusType where
  | seat28 : BusType
  | seat45 : BusType

/-- Serialization of the bus category tag. -/
def BusType.toJson : BusType → Json
  | BusType.seat28 => Json.str "28-seat"
  | BusType.seat45 => Json.str "45-seat"

/-- The payload of routeAPI.create: Route minus id, is_active and
created_at. -/
structure RouteCreate where
  name : String
  departure_location : String
  destination : String

/-- Serialization of a route-creation payload. -/
def RouteCreate.toJson (d : RouteCreate) : Json :=
  Json.obj [("name", Json.str d.name),
            ("departure_location", Json.str d.departure_location),
            ("destination", Json.str d.destination)]

/-- The payload of routeAPI.update: a partial route-creation payload. -/
structure RoutePatch where
  name : Option String
  departure_location : Option String
  destination : Option String

/-- Serialization of a route-update payload. -/
def RoutePatch.toJson (d : RoutePatch) : Json :=
  Json.obj (optField "name" (d.name.map Json.str)
    ++ optField "departure_location" (d.departure_location.map Json.str)
    ++ optField "destination" (d.destination.map Json.str))

/-- The payload of busAPI.create: Bus minus id, available_seats and
occupancy_rate. -/
structure BusCreate where
  bus_number : String
  route : String
  departure_time : String
  arrival_time : String
  destination : String
  bus_type : BusType
  total_seats : Int

/-- Serialization of a bus-creation payload. -/
def BusCreate.toJson (d : BusCreate) : Json :=
  Json.obj [("bus_number", Json.str d.bus_number),
            ("route", Json.str d.route),
            ("departure_time", Json.str d.departure_time),
            ("arrival_time", Json.str d.arrival_time),
            ("destination", Json.str d.destination),
            ("bus_type", d.bus_type.toJson),
            ("total_seats", Json.num d.total_seats)]

/-- The payload of busAPI.update: a partial Bus, every field optional. -/
structure BusPatch where
  id : Option Int
  bus_number : Option String
  route : Option String
  departure_time : Option String
  arrival_time : Option String
  destination : Option String
  bus_type : Option BusType
  total_seats : Option Int
  available_seats : Option Int
  occupancy_rate : Option Int

/-- Serialization of a bus-update payload. -/
def BusPatch.toJson (d : BusPatch) : Json :=
  Json.obj (optField "id" (d.id.map Json.num)
    ++ optField "bus_number" (d.bus_number.map Json.str)
    ++ optField "route" (d.route.map Json.str)
    ++ optField "departure_time" (d.departure_time.map Json.str)
    ++ optField "arrival_time" (d.arrival_time.map Json.str)
    ++ optField "destination" (d.destination.map Json.str)
    ++ optField "bus_type" (d.bus_type.map BusType.toJson)
    ++ optField "total_seats" (d.total_seats.map Json.num)
    ++ optField "available_seats" (d.available_seats.map Json.num)
    ++ optField "occupancy_rate" (d.occupancy_rate.map Json.num))

/-- The payload of reservationAPI.create: a bus id, a list of seat
identifiers and a reservation date. -/
structure ReservationCreate where
  bus_id : Int
  seat_numbers : List String
  reservation_date : String

/-- Serialization of a reservation-creation payload. -/
def ReservationCreate.toJson (d : ReservationCreate) : Json :=
  Json.obj [("bus_id", Json.num d.bus_id),
            ("seat_numbers", Json.arr (d.seat_numbers.map Json.str)),
            ("reservation_date", Json.str d.reservation_date)]

/-- The payload of adminAPI.createDirectReservation. -/
structure DirectReservationCreate where
  user_id : Int
  bus_id : Int
  seat_numbers : List String

/-- Serialization of a direct-reservation payload. -/
def DirectReservationCreate.toJson (d : DirectReservationCreate) : Json :=
  Json.obj [("user_id", Json.num d.user_id),
            ("bus_id", Json.num d.bus_id),
            ("seat_numbers", Json.arr (d.seat_numbers.map Json.str))]

/-
Frontend resource modules: each operation is the request it builds from
the base URL and the current store.
-/

/-- authAPI.login: a POST of the credentials as URLSearchParams form
fields with a form-urlencoded content type, bypassing the shared
ApiClient and its auth headers. -/
def authAPI.login (baseURL : String) (username password : String) : Request :=
  { url := baseURL ++ "/api/auth/login"
    method := "POST"
    headers := [("Content-Type", "application/x-www-form-urlencoded")]
    body := some (Body.form [("username", username), ("password", password)]) }

/-- authAPI.login response handling: on a non-2xx response the extracted
error with fallback message Login failed is raised, with no store change
and no navigation; on success the body is decoded as JSON. -/
def authAPI.loginHandle (store : Store) (r : Response) : Outcome :=
  if r.ok = true then
    { result := match r.jsonBody with
        | some j => Except.ok (Value.json j)
        | none => Except.error (JsError.syntaxError "Unexpected end of JSON input")
      store := store
      navigation := none }
  else
    { result := thrownErrorFrom "Login failed" r
      store := store
      navigation := none }

/-- authAPI.logout. -/
def authAPI.logout (baseURL : String) (store : Store) : Request :=
  ApiClient.post baseURL store "/api/auth/logout" none

/-- authAPI.me. -/
def authAPI.me (baseURL : String) (store : Store) : Request :=
  ApiClient.get baseURL store "/api/auth/me"

/-- routeAPI.getAll. -/
def routeAPI.getAll (baseURL : String) (store : Store) : Request :=
  ApiClient.get baseURL store "/api/buses/routes"

/-- routeAPI.create. -/
def routeAPI.create (baseURL : String) (store : Store) (data : RouteCreate) : Request :=
  ApiClient.post baseURL store "/api/buses/routes" (some data.toJson)

/-- routeAPI.update. -/
def routeAPI.update (baseURL : String) (store : Store) (id : Int) (data : RoutePatch) :
    Request :=
  ApiClient.put baseURL store ("/api/buses/routes/" ++ toString id) (some data.toJson)

/-- routeAPI.delete. -/
def routeAPI.delete (baseURL : String) (store : Store) (id : Int) : Request :=
  ApiClient.delete baseURL store ("/api/buses/routes/" ++ toString id)

/-- busAPI.getAll: the reservation-date query parameter is appended
exactly when the argument is supplied and truthy, that is, nonempty. -/
def busAPI.getAll (baseURL : String) (store : Store) (reservationDate : Option String) :
    Request :=
  let params := match reservationDate with
    | some d => if d = "" then "" else "?reservation_date=" ++ d
    | none => ""
  ApiClient.get baseURL store ("/api/buses/" ++ params)

/-- busAPI.getById. -/
def busAPI.getById (baseURL : String) (store : Store) (id : Int) : Request :=
  ApiClient.get baseURL store ("/api/buses/" ++ toString id)

/-- busAPI.create. -/
def busAPI.create (baseURL : String) (store : Store) (data : BusCreate) : Request :=
  ApiClient.post baseURL store "/api/buses/" (some data.toJson)

/-- busAPI.update. -/
def busAPI.update (baseURL : String) (store : Store) (id : Int) (data : BusPatch) :
    Request :=
  ApiClient.put baseURL store ("/api/buses/" ++ toString id ++ "/") (some data.toJson)

/-- busAPI.delete. -/
def busAPI.delete (baseURL : String) (store : Store) (id : Int) : Request :=
  ApiClient.delete baseURL store ("/api/buses/" ++ toString id ++ "/")

/-- busAPI.getMyBuses. -/
def busAPI.getMyBuses (baseURL : String) (store : Store) : Request :=
  ApiClient.get baseURL store "/api/buses/driver/my-buses"

/-- busAPI.getMyBus: same optional date query as busAPI.getAll. -/
def busAPI.getMyBus (baseURL : String) (store : Store) (reservationDate : Option String) :
    Request :=
  let params := match reservationDate with
    | some d => if d = "" then "" else "?reservation_date=" ++ d
    | none => ""
  ApiClient.get baseURL store ("/api/buses/driver/my-bus" ++ params)

/-- busAPI.getSeats. -/
def busAPI.getSeats (baseURL : String) (store : Store) (busId : Int)
    (reservationDate : String) : Request :=
  ApiClient.get baseURL store
    ("/api/buses/" ++ toString busId ++ "/seats?reservation_date=" ++ reservationDate)

/-- reservationAPI.getAll. -/
def reservationAPI.getAll (baseURL : String) (store : Store) : Request :=
  ApiClient.get baseURL store "/api/reservations/"

/-- reservationAPI.getUserReservations. -/
def reservationAPI.getUserReservations (baseURL : String) (store : Store) : Request :=
  ApiClient.get baseURL store "/api/reservations/user"

/-- reservationAPI.create. -/
def reservationAPI.create (baseURL : String) (store : Store) (data : ReservationCreate) :
    Request :=
  ApiClient.post baseURL store "/api/reservations/" (some data.toJson)

/-- reservationAPI.cancel. -/
def reservationAPI.cancel (baseURL : String) (store : Store) (id : Int) : Request :=
  ApiClient.delete baseURL store ("/api/reservations/" ++ toString id ++ "/")

/-- adminAPI.getStats. -/
def adminAPI.getStats (baseURL : String) (store : Store) : Request :=
  ApiClient.get baseURL store "/api/admin/dashboard"

/-- adminAPI.getAllUsers. -/
def adminAPI.getAllUsers (baseURL : String) (store : Store) : Request :=
  ApiClient.get baseURL store "/api/admin/users"

/-- adminAPI.createDirectReservation. -/
def adminAPI.createDirectReservation (baseURL : String) (store : Store)
    (data : DirectReservationCreate) : Request :=
  ApiClient.post baseURL store "/api/admin/reservations/direct" (some data.toJson)

/-- userAPI.getDrivers. -/
def userAPI.getDrivers (baseURL : String) (store : Store) : Request :=
  ApiClient.get baseURL store "/api/users/drivers"

/-
Second client module, src/src/lib/api.ts: the apiRequest helper and the
api object.  This module never references the persisted store.
-/

/-- The role enumeration of the second module User shape. -/
inductive Role where
  | admin : Role
  | user : Role
  | driver : Role

/-- Serialization of a role. -/
def Role.toJson : Role → Json
  | Role.admin => Json.str "admin"
  | Role.user => Json.str "user"
  | Role.driver => Json.str "driver"

/-- The reservation status enumeration of the second module. -/
inductive ResStatus where
  | confirmed : ResStatus
  | cancelled : ResStatus

/-- Serialization of a reservation status. -/
def ResStatus.toJson : ResStatus → Json
  | ResStatus.confirmed => Json.str "confirmed"
  | ResStatus.cancelled => Json.str "cancelled"

/-- The payload of the second module buses.create: Bus minus id. -/
structure Bus2Create where
  destination : String
  departureTime : String
  capacity : Int
  occupiedSeats : List Int
  driver : Option String

/-- Serialization of the second module bus-creation payload. -/
def Bus2Create.toJson (d : Bus2Create) : Json :=
  Json.obj ([("destination", Json.str d.destination),
             ("departureTime", Json.str d.departureTime),
             ("capacity", Json.num d.capacity),
             ("occupiedSeats", Json.arr (d.occupiedSeats.map Json.num))]
    ++ optField "driver" (d.driver.map Json.str))

/-- The payload of the second module buses.update: a partial Bus. -/
structure Bus2Patch where
  id : Option Int
  destination : Option String
  departureTime : Option String
  capacity : Option Int
  occupiedSeats : Option (List Int)
  driver : Option String

/-- Serialization of the second module bus-update payload. -/
def Bus2Patch.toJson (d : Bus2Patch) : Json :=
  Json.obj (optField "id" (d.id.map Json.num)
    ++ optField "destination" (d.destination.map Json.str)
    ++ optField "departureTime" (d.departureTime.map Json.str)
    ++ optField "capacity" (d.capacity.map Json.num)
    ++ optField "occupiedSeats" (d.occupiedSeats.map (fun xs => Json.arr (xs.map Json.num)))
    ++ optField "driver" (d.driver.map Json.str))

/-- The payload of the second module reservations.create: Reservation
minus id and createdAt, so the caller supplies the status field. -/
structure Reservation2Create where
  userId : Int
  busId : Int
  seatNumber : Int
  status : ResStatus

/-- Serialization of the second module reservation-creation payload. -/
def Reservation2Create.toJson (d : Reservation2Create) : Json :=
  Json.obj [("userId", Json.num d.userId),
            ("busId", Json.num d.busId),
            ("seatNumber", Json.num d.seatNumber),
            ("status", d.status.toJson)]

/-- The payload of the second module users.create: User minus id. -/
structure User2Create where
  name : String
  email : String
  role : Role

/-- Serialization of the second module user-creation payload. -/
def User2Create.toJson (d : User2Create) : Json :=
  Json.obj [("name", Json.str d.name),
            ("email", Json.str d.email),
            ("role", d.role.toJson)]

/-- The request apiRequest hands to fetch: the fetch init is the object
with the merged headers, overridden by every key the caller supplied in
options (including, were it ever present, the headers key itself); the
method defaults to GET. -/
def apiRequest.request (baseURL endpoint : String) (options : RequestOptions) : Request :=
  { url := baseURL ++ endpoint
    method := options.method.getD "GET"
    headers := match options.headers with
      | some hs => hs
      | none => [("Content-Type", "application/json")]
    body := options.body }

/-- The value or error apiRequest produces from a response: a non-2xx
status raises ApiError with the status and a message built from the
status text; otherwise the body is decoded as JSON unconditionally,
rejecting when it is not JSON. -/
def apiRequest.result (r : Response) : Except JsError Value :=
  if r.ok = false then
    Except.error (JsError.apiError r.status ("API request failed: " ++ r.statusText))
  else
    match r.jsonBody with
    | some j => Except.ok (Value.json j)
    | none => Except.error (JsError.syntaxError "Unexpected end of JSON input")

/-- The outcome of an apiRequest call: the result, with the persisted
store passed through untouched and no navigation. -/
def apiRequest.handle (store : Store) (r : Response) : Outcome :=
  { result := apiRequest.result r, store := store, navigation := none }

/-- The operations of the second module api object, with their
arguments. -/
inductive Api2Op where
  | busesGetAll : Api2Op
  | busesGetById : Int → Api2Op
  | busesCreate : Bus2Create → Api2Op
  | busesUpdate : Int → Bus2Patch → Api2Op
  | busesDelete : Int → Api2Op
  | reservationsGetAll : Api2Op
  | reservationsGetByUserId : Int → Api2Op
  | reservationsGetByBusId : Int → Api2Op
  | reservationsCreate : Reservation2Create → Api2Op
  | reservationsCancel : Int → Api2Op
  | usersGetAll : Api2Op
  | usersGetById : Int → Api2Op
  | usersCreate : User2Create → Api2Op
  | authLogin : String → String → Api2Op
  | authLogout : Api2Op

/-- The endpoint and options each second-module operation passes to
apiRequest. -/
def Api2Op.options : Api2Op → String × RequestOptions
  | Api2Op.busesGetAll => ("/api/buses", ⟨none, none, none⟩)
  | Api2Op.busesGetById id => ("/api/buses/" ++ toString id, ⟨none, none, none⟩)
  | Api2Op.busesCreate d =>
      ("/api/buses", ⟨some "POST", none, some (Body.json d.toJson)⟩)
  | Api2Op.busesUpdate id d =>
      ("/api/buses/" ++ toString id, ⟨some "PUT", none, some (Body.json d.toJson)⟩)
  | Api2Op.busesDelete id => ("/api/buses/" ++ toString id, ⟨some "DELETE", none, none⟩)
  | Api2Op.reservationsGetAll => ("/api/reservations", ⟨none, none, none⟩)
  | Api2Op.reservationsGetByUserId userId =>
      ("/api/reservations/user/" ++ toString userId, ⟨none, none, none⟩)
  | Api2Op.reservationsGetByBusId busId =>
      ("/api/reservations/bus/" ++ toString busId, ⟨none, none, none⟩)
  | Api2Op.reservationsCreate d =>
      ("/api/reservations", ⟨some "POST", none, some (Body.json d.toJson)⟩)
  | Api2Op.reservationsCancel id =>
      ("/api/reservations/" ++ toString id ++ "/cancel", ⟨some "PATCH", none, none⟩)
  | Api2Op.usersGetAll => ("/api/users", ⟨none, none, none⟩)
  | Api2Op.usersGetById id => ("/api/users/" ++ toString id, ⟨none, none, none⟩)
  | Api2Op.usersCreate d =>
      ("/api/users", ⟨some "POST", none, some (Body.json d.toJson)⟩)
  | Api2Op.authLogin email password =>
      ("/api/auth/login",
        ⟨some "POST", none,
          some (Body.json (Json.obj [("email", Json.str email),
                                     ("password", Json.str password)]))⟩)
  | Api2Op.authLogout => ("/api/auth/logout", ⟨some "POST", none, none⟩)

/-- The request a second-module operation issues. -/
def Api2Op.request (baseURL : String) (op : Api2Op) : Request :=
  apiRequest.request baseURL op.options.1 op.options.2

/-- A full run of a second-module operation against a response. -/
def Api2Op.call (baseURL : String) (op : Api2Op) (store : Store) (r : Response) :
    OpResult :=
  { request := op.request baseURL, outcome := apiRequest.handle store r }

/-
Frontend operation enumeration: every operation of every frontend
resource module, with its arguments.
-/

/-- The operations of the frontend resource modules. -/
inductive FrontOp where
  | authLogin : String → String → FrontOp
  | authLogout : FrontOp
  | authMe : FrontOp
  | routesGetAll : FrontOp
  | routesCreate : RouteCreate → FrontOp
  | routesUpdate : Int → RoutePatch → FrontOp
  | routesDelete : Int → FrontOp
  | busesGetAll : Option String → FrontOp
  | busesGetById : Int → FrontOp
  | busesCreate : BusCreate → FrontOp
  | busesUpdate : Int → BusPatch → FrontOp
  | busesDelete : Int → FrontOp
  | busesGetMyBuses : FrontOp
  | busesGetMyBus : Option String → FrontOp
  | busesGetSeats : Int → String → FrontOp
  | reservationsGetAll : FrontOp
  | reservationsGetUser : FrontOp
  | reservationsCreate : ReservationCreate → FrontOp
  | reservationsCancel : Int → FrontOp
  | adminGetStats : FrontOp
  | adminGetAllUsers : FrontOp
  | adminCreateDirect : DirectReservationCreate → FrontOp
  | usersGetDrivers : FrontOp

/-- The request a frontend operation issues from a base URL and the
current store. -/
def FrontOp.request (baseURL : String) (store : Store) : FrontOp → Request
  | FrontOp.authLogin u p => authAPI.login baseURL u p
  | FrontOp.authLogout => authAPI.logout baseURL store
  | FrontOp.authMe => authAPI.me baseURL store
  | FrontOp.routesGetAll => routeAPI.getAll baseURL store
  | FrontOp.routesCreate d => routeAPI.create baseURL store d
  | FrontOp.routesUpdate id d => routeAPI.update baseURL store id d
  | FrontOp.routesDelete id => routeAPI.delete baseURL store id
  | FrontOp.busesGetAll d => busAPI.getAll baseURL store d
  | FrontOp.busesGetById id => busAPI.getById baseURL store id
  | FrontOp.busesCreate d => busAPI.create baseURL store d
  | FrontOp.busesUpdate id d => busAPI.update baseURL store id d
  | FrontOp.busesDelete id => busAPI.delete baseURL store id
  | FrontOp.busesGetMyBuses => busAPI.getMyBuses baseURL store
  | FrontOp.busesGetMyBus d => busAPI.getMyBus baseURL store d
  | FrontOp.busesGetSeats id d => busAPI.getSeats baseURL store id d
  | FrontOp.reservationsGetAll => reservationAPI.getAll baseURL store
  | FrontOp.reservationsGetUser => reservationAPI.getUserReservations baseURL store
  | FrontOp.reservationsCreate d => reservationAPI.create baseURL store d
  | FrontOp.reservationsCancel id => reservationAPI.cancel baseURL store id
  | FrontOp.adminGetStats => adminAPI.getStats baseURL store
  | FrontOp.adminGetAllUsers => adminAPI.getAllUsers baseURL store
  | FrontOp.adminCreateDirect d => adminAPI.createDirectReservation baseURL store d
  | FrontOp.usersGetDrivers => userAPI.getDrivers baseURL store

/-- Whether the operation goes through the shared ApiClient: every
frontend operation does, except authAPI.login which issues its own raw
fetch with its own error handling. -/
def FrontOp.usesClient : FrontOp → Bool
  | FrontOp.authLogin _ _ => false
  | _ => true

/-- The outcome a frontend operation computes from a response: the login
handler for authAPI.login, the shared ApiClient.handleResponse for every
other operation. -/
def FrontOp.handle (op : FrontOp) (store : Store) (r : Response) : Outcome :=
  match op with
  | FrontOp.authLogin _ _ => authAPI.loginHandle store r
  | _ => ApiClient.handleResponse store r

/-
Helper lemmas about the store, the response predicate and the shared
error path.
-/

/-- Removing a key removes it: the key is absent afterwards. -/
theorem Store.getItem_removeItem_self (s : Store) (k : String) :
    Store.getItem (Store.removeItem s k) k = none := by
  induction s with
  | nil => rfl
  | cons p t ih =>
    obtain ⟨k0, v⟩ := p
    by_cases h : k0 = k
    · simpa [Store.removeItem, h] using ih
    · simpa [Store.removeItem, Store.getItem, h] using ih

/-- Removing one key leaves every other key unchanged. -/
theorem Store.getItem_removeItem_ne (s : Store) (k k2 : String) (h : k2 ≠ k) :
    Store.getItem (Store.removeItem s k) k2 = Store.getItem s k2 := by
  induction s with
  | nil => rfl
  | cons p t ih =>
    obtain ⟨k0, v⟩ := p
    by_cases hp : k0 = k
    · have hp2 : ¬ (k = k2) := fun hk => h hk.symm
      simpa [Store.removeItem, Store.getItem, hp, hp2] using ih
    · by_cases hq : k0 = k2
      · simp [Store.removeItem, Store.getItem, hp, hq, h]
      · simpa [Store.removeItem, Store.getItem, hp, hq] using ih

/-- A 401 status is never a 2xx success. -/
theorem Response.ok_of_401 (r : Response) (h : r.status = 401) : r.ok = false := by
  simp [Response.ok, h]

/-- Whether a call result is a raised ApiError. -/
def isApiErrorResult : Except JsError Value → Bool
  | Except.error (JsError.apiError _ _) => true
  | _ => false

/-- Whether an outcome raised an ApiError. -/
def raisedApiError (o : Outcome) : Bool :=
  isApiErrorResult o.result

/-- The frontend error path always raises something. -/
theorem thrownErrorFrom_isError (fallback : String) (r : Response) :
    ∃ e, thrownErrorFrom fallback r = Except.error e := by
  unfold thrownErrorFrom
  cases errorMessageFrom fallback r.status r.jsonBody <;> exact ⟨_, rfl⟩

/-- The frontend error path never raises an ApiError. -/
theorem isApiErrorResult_thrownErrorFrom (fallback : String) (r : Response) :
    isApiErrorResult (thrownErrorFrom fallback r) = false := by
  unfold thrownErrorFrom
  cases errorMessageFrom fallback r.status r.jsonBody <;> rfl

/-- Every frontend operation that goes through the shared ApiClient sends
exactly the auth headers computed from the store. -/
theorem FrontOp.request_headers (baseURL : String) (store : Store) (op : FrontOp)
    (h : op.usesClient = true) :
    (op.request baseURL store).headers = ApiClient.getAuthHeaders store := by
  cases op <;> first
    | rfl
    | simp [FrontOp.usesClient] at h

/-- Every frontend operation that goes through the shared ApiClient
handles its response with ApiClient.handleResponse. -/
theorem FrontOp.handle_eq (op : FrontOp) (h : op.usesClient = true)
    (store : Store) (r : Response) :
    op.handle store r = ApiClient.handleResponse store r := by
  cases op <;> first
    | rfl
    | simp [FrontOp.usesClient] at h

/-- The only frontend operation not going through the shared ApiClient is
the login operation, which handles its response with the login handler. -/
theorem FrontOp.handle_eq_login (op : FrontOp) (h : op.usesClient = false)
    (store : Store) (r : Response) :
    op.handle store r = authAPI.loginHandle store r := by
  cases op <;> first
    | rfl
    | simp [FrontOp.usesClient] at h

/-- C9: frame property of the frontend 401 interceptor.  Handling a 401
response removes exactly the token and user keys from the persisted store
and leaves every other key unchanged; handling any response whose status
is not 401 leaves the store entirely untouched. -/
theorem interceptor_frame (store : Store) (r : Response) :
    (r.status = 401 →
      (ApiClient.handleResponse store r).store
          = Store.removeItem (Store.removeItem store "token") "user"
      ∧ Store.getItem (ApiClient.handleResponse store r).store "token" = none
      ∧ Store.getItem (ApiClient.handleResponse store r).store "user" = none
      ∧ ∀ k, k ≠ "token" → k ≠ "user" →
          Store.getItem (ApiClient.handleResponse store r).store k
            = Store.getItem store k)
    ∧ (r.status ≠ 401 → (ApiClient.handleResponse store r).store = store) := by
  constructor
  · intro h
    have hok : r.ok = false := Response.ok_of_401 r h
    have hst : (ApiClient.handleResponse store r).store
        = Store.removeItem (Store.removeItem store "token") "user" := by
      simp [ApiClient.handleResponse, hok, store401, h]
    refine ⟨hst, ?_, ?_, ?_⟩
    · rw [hst]
      rw [Store.getItem_removeItem_ne _ _ _ (by decide)]
      exact Store.getItem_removeItem_self store "token"
    · rw [hst]
      exact Store.getItem_removeItem_self _ "user"
    · intro k hk1 hk2
      rw [hst, Store.getItem_removeItem_ne _ _ _ hk2,
        Store.getItem_removeItem_ne _ _ _ hk1]
  · intro h
    by_cases hok : r.ok = true
    · simp [ApiClient.handleResponse, hok]
    · simp at hok
      simp [ApiClient.handleResponse, hok, store401, h]

/-- Witness for C9 at a concrete 401 response and a store holding a
token, a user and an unrelated key. -/
theorem interceptor_frame_witness :
    ((401 : Nat) = 401)
    ∧ (ApiClient.handleResponse [("token", "tok1"), ("user", "u1"), ("theme", "dark")]
          { status := 401, statusText := "Unauthorized",
            contentType := some "application/json",
            jsonBody := some (Json.obj [("message", Json.str "expired")]),
            textBody := "" }).store
        = [("theme", "dark")] :=
  ⟨rfl, ((interceptor_frame [("token", "tok1"), ("user", "u1"), ("theme", "dark")]
      { status := 401, statusText := "Unauthorized",
        contentType := some "application/json",
        jsonBody := some (Json.obj [("message", Json.str "expired")]),
        textBody := "" }).1 rfl).1⟩

/-- C10: noninterference of the second client module with the persisted
store.  Every operation of the second module issues a request independent
of the store contents, carrying exactly the default JSON content-type
header and never an Authorization header, computes a store-independent
result, performs no navigation, and leaves the store unchanged. -/
theorem module2_store_noninterference (baseURL : String) (op : Api2Op)
    (s1 s2 : Store) (r : Response) :
    (Api2Op.call baseURL op s1 r).request = (Api2Op.call baseURL op s2 r).request
    ∧ (Api2Op.call baseURL op s1 r).request.headers
        = [("Content-Type", "application/json")]
    ∧ ((Api2Op.call baseURL op s1 r).request.headers.lookup "Authorization" = none)
    ∧ (Api2Op.call baseURL op s1 r).outcome.store = s1
    ∧ (Api2Op.call baseURL op s1 r).outcome.result
        = (Api2Op.call baseURL op s2 r).outcome.result
    ∧ (Api2Op.call baseURL op s1 r).outcome.navigation = none := by
  refine ⟨rfl, ?_, ?_, rfl, rfl, rfl⟩
  · cases op <;> rfl
  · cases op <;> rfl

/-- C3: every frontend request issued through the shared ApiClient while
a session token is present in the persisted store carries the default
JSON content-type header merged with a bearer Authorization header for
that token, and carries no Authorization header when no token is stored;
in particular a getAll-buses call issued after a token has been stored
carries that bearer header. -/
theorem bearer_header_attached (baseURL : String) (op : FrontOp) (store : Store)
    (hop : op.usesClient = true) :
    (∀ tok, Store.getItem store "token" = some tok → tok ≠ "" →
       (op.request baseURL store).headers
         = [("Content-Type", "application/json"), ("Authorization", "Bearer " ++ tok)])
    ∧ (Store.getItem store "token" = none →
       (op.request baseURL store).headers = [("Content-Type", "application/json")])
    ∧ (∀ s tok, tok ≠ "" →
       (busAPI.getAll baseURL (Store.setItem s "token" tok) none).headers
         = [("Content-Type", "application/json"), ("Authorization", "Bearer " ++ tok)]) := by
  have hh : (op.request baseURL store).headers = ApiClient.getAuthHeaders store :=
    FrontOp.request_headers baseURL store op hop
  refine ⟨?_, ?_, ?_⟩
  · intro tok htok hne
    rw [hh]
    simp [ApiClient.getAuthHeaders, htok, hne, ApiClient.defaultHeaders]
  · intro hnone
    rw [hh]
    simp [ApiClient.getAuthHeaders, hnone, ApiClient.defaultHeaders]
  · intro s tok hne
    simp [busAPI.getAll, ApiClient.get, ApiClient.getAuthHeaders, Store.setItem,
      Store.getItem, hne, ApiClient.defaultHeaders]

/-- Witness for C3: with token abc123 stored, the getAll-buses request
carries the bearer header. -/
theorem bearer_header_attached_witness :
    FrontOp.usesClient (FrontOp.busesGetAll (some "2024-01-15")) = true
    ∧ Store.getItem [("token", "abc123")] "token" = some "abc123"
    ∧ ("abc123" : String) ≠ ""
    ∧ (FrontOp.request "http://localhost:8000" [("token", "abc123")]
        (FrontOp.busesGetAll (some "2024-01-15"))).headers
      = [("Content-Type", "application/json"), ("Authorization", "Bearer abc123")] :=
  ⟨rfl, rfl, by decide,
    (bearer_header_attached "http://localhost:8000"
        (FrontOp.busesGetAll (some "2024-01-15")) [("token", "abc123")] rfl).1
      "abc123" rfl (by decide)⟩

/-- C8: for every nonempty date string d, busAPI.getAll applied to d
issues a GET request whose URL is the buses collection endpoint followed
by reservation_date equal to d, and with the date argument omitted the
query parameter is not appended and the bare collection endpoint is
requested. -/
theorem busAPI_getAll_url (baseURL : String) (store : Store) (d : String)
    (hd : d ≠ "") :
    (busAPI.getAll baseURL store (some d)).url
        = baseURL ++ "/api/buses/?reservation_date=" ++ d
    ∧ (busAPI.getAll baseURL store (some d)).method = "GET"
    ∧ (busAPI.getAll baseURL store none).url = baseURL ++ "/api/buses/"
    ∧ (busAPI.getAll baseURL store none).method = "GET" := by
  refine ⟨?_, rfl, rfl, rfl⟩
  have hlit : ("/api/buses/" ++ "?reservation_date=" : String)
      = "/api/buses/?reservation_date=" := rfl
  have h1 : "/api/buses/" ++ ("?reservation_date=" ++ d)
      = "/api/buses/?reservation_date=" ++ d := by
    rw [← String.append_assoc, hlit]
  show baseURL ++ ("/api/buses/" ++ (if d = "" then "" else "?reservation_date=" ++ d))
      = baseURL ++ "/api/buses/?reservation_date=" ++ d
  rw [if_neg hd, h1, ← String.append_assoc]

/-- Witness for C8 at the date of the spec scenario. -/
theorem busAPI_getAll_url_witness :
    ("2024-01-15" : String) ≠ ""
    ∧ (busAPI.getAll "http://localhost:8000" [] (some "2024-01-15")).url
        = "http://localhost:8000/api/buses/?reservation_date=2024-01-15" :=
  ⟨by decide, (busAPI_getAll_url "http://localhost:8000" [] "2024-01-15" (by decide)).1⟩

/-- The top-level key set of a JSON value. -/
def Json.keys : Json → List String
  | Json.obj fields => fields.map (fun p => p.1)
  | _ => []

/-- C5: the create operations of the frontend module (bus, route and
reservation creation) send exactly the caller-supplied field set as the
request body and never a server-assigned identifier, computed
availability field, activity flag or creation timestamp. -/
theorem create_bodies_exclude_server_fields (baseURL : String) (store : Store)
    (b : BusCreate) (rt : RouteCreate) (rv : ReservationCreate) :
    ((busAPI.create baseURL store b).body = some (Body.json b.toJson)
      ∧ Json.keys b.toJson
          = ["bus_number", "route", "departure_time", "arrival_time", "destination",
             "bus_type", "total_seats"]
      ∧ "id" ∉ Json.keys b.toJson
      ∧ "available_seats" ∉ Json.keys b.toJson
      ∧ "occupancy_rate" ∉ Json.keys b.toJson
      ∧ "created_at" ∉ Json.keys b.toJson)
    ∧ ((routeAPI.create baseURL store rt).body = some (Body.json rt.toJson)
      ∧ Json.keys rt.toJson = ["name", "departure_location", "destination"]
      ∧ "id" ∉ Json.keys rt.toJson
      ∧ "is_active" ∉ Json.keys rt.toJson
      ∧ "created_at" ∉ Json.keys rt.toJson)
    ∧ ((reservationAPI.create baseURL store rv).body = some (Body.json rv.toJson)
      ∧ Json.keys rv.toJson = ["bus_id", "seat_numbers", "reservation_date"]
      ∧ "id" ∉ Json.keys rv.toJson
      ∧ "created_at" ∉ Json.keys rv.toJson) := by
  refine ⟨⟨rfl, rfl, ?_, ?_, ?_, ?_⟩, ⟨rfl, rfl, ?_, ?_, ?_⟩, ⟨rfl, rfl, ?_, ?_⟩⟩ <;>
    simp [BusCreate.toJson, RouteCreate.toJson, ReservationCreate.toJson, Json.keys]

/-- On a 401 the frontend handler store is the store with token and user
removed. -/
theorem handleResponse_store_401 (store : Store) (r : Response) (h : r.status = 401) :
    (ApiClient.handleResponse store r).store
      = Store.removeItem (Store.removeItem store "token") "user" := by
  simp [ApiClient.handleResponse, Response.ok_of_401 r h, store401, h]

/-- On a 401 the frontend handler navigates to the login page. -/
theorem handleResponse_nav_401 (store : Store) (r : Response) (h : r.status = 401) :
    (ApiClient.handleResponse store r).navigation = some "/login" := by
  simp [ApiClient.handleResponse, Response.ok_of_401 r h, nav401, h]

/-- On a non-2xx response the frontend handler result is the thrown
error with the Network error fallback. -/
theorem handleResponse_result_err (store : Store) (r : Response) (h : r.ok = false) :
    (ApiClient.handleResponse store r).result = thrownErrorFrom "Network error" r := by
  simp [ApiClient.handleResponse, h]

/-- Counterexample to C1 as stated: at a concrete 404 response whose body
carries a message, the frontend transport core raises a plain Error with
that message and not an ApiError, so no status field equal to 404 is
carried on the raised error. -/
theorem frontend_404_raises_plain_error :
    (ApiClient.handleResponse []
        { status := 404, statusText := "Not Found",
          contentType := some "application/json",
          jsonBody := some (Json.obj [("message", Json.str "Not found")]),
          textBody := "" }).result
      = Except.error (JsError.error "Not found")
    ∧ raisedApiError (ApiClient.handleResponse []
        { status := 404, statusText := "Not Found",
          contentType := some "application/json",
          jsonBody := some (Json.obj [("message", Json.str "Not found")]),
          textBody := "" }) = false :=
  ⟨rfl, rfl⟩

/-- C1 (amended): for every non-2xx response, the second client module
raises an ApiError whose status equals the HTTP status code but whose
message derives from the HTTP status text rather than the response body,
while the frontend transport core always raises an error that is never an
ApiError: a plain Error whose message is the body message field when that
is a nonempty string, the fallback Network error when the body is not
parseable JSON, and HTTP with the status code when the parsed body has no
message field. -/
theorem non2xx_error_raising (store : Store) (r : Response) (h : r.ok = false) :
    (apiRequest.handle store r).result
        = Except.error (JsError.apiError r.status ("API request failed: " ++ r.statusText))
    ∧ raisedApiError (ApiClient.handleResponse store r) = false
    ∧ (∃ e, (ApiClient.handleResponse store r).result = Except.error e)
    ∧ (r.jsonBody = none →
        (ApiClient.handleResponse store r).result
          = Except.error (JsError.error "Network error"))
    ∧ (∀ fields m, r.jsonBody = some (Json.obj fields) →
        fields.lookup "message" = some (Json.str m) → m ≠ "" →
        (ApiClient.handleResponse store r).result = Except.error (JsError.error m))
    ∧ (∀ fields, r.jsonBody = some (Json.obj fields) →
        fields.lookup "message" = none →
        (ApiClient.handleResponse store r).result
          = Except.error (JsError.error ("HTTP " ++ toString r.status))) := by
  have hres := handleResponse_result_err store r h
  refine ⟨?_, ?_, ?_, ?_, ?_, ?_⟩
  · simp [apiRequest.handle, apiRequest.result, h]
  · show isApiErrorResult (ApiClient.handleResponse store r).result = false
    rw [hres]
    exact isApiErrorResult_thrownErrorFrom _ r
  · rw [hres]
    exact thrownErrorFrom_isError _ r
  · intro hb
    rw [hres]
    simp [thrownErrorFrom, errorMessageFrom, messageProp, extractedMessage,
      jsTruthy, jsToString, hb]
  · intro fields m hb hm hne
    rw [hres]
    simp [thrownErrorFrom, errorMessageFrom, messageProp, extractedMessage,
      jsTruthy, jsToString, hb, hm, hne]
  · intro fields hb hm
    rw [hres]
    simp [thrownErrorFrom, errorMessageFrom, messageProp, extractedMessage, hb, hm]

/-- Witness for C1 (amended) at a concrete 500 response with an
unparseable body. -/
theorem non2xx_error_raising_witness :
    ({ status := 500, statusText := "Internal Server Error",
        contentType := some "text/html",
        jsonBody := none, textBody := "boom" } : Response).ok = false
    ∧ (apiRequest.handle []
        { status := 500, statusText := "Internal Server Error",
          contentType := some "text/html",
          jsonBody := none, textBody := "boom" }).result
      = Except.error (JsError.apiError 500 "API request failed: Internal Server Error")
    ∧ (ApiClient.handleResponse []
        { status := 500, statusText := "Internal Server Error",
          contentType := some "text/html",
          jsonBody := none, textBody := "boom" }).result
      = Except.error (JsError.error "Network error") := by
  refine ⟨rfl, ?_, ?_⟩
  · exact (non2xx_error_raising []
      { status := 500, statusText := "Internal Server Error",
        contentType := some "text/html",
        jsonBody := none, textBody := "boom" } rfl).1
  · exact (non2xx_error_raising []
      { status := 500, statusText := "Internal Server Error",
        contentType := some "text/html",
        jsonBody := none, textBody := "boom" } rfl).2.2.2.1 rfl

/-- Counterexample to C2 as stated: a 401 response to the second module
getAll-buses operation leaves the stored token and user in place and
triggers no navigation, so the persisted session store is not cleared for
this operation. -/
theorem module2_401_keeps_token :
    Store.getItem (Api2Op.call "http://localhost:8000" Api2Op.busesGetAll
        [("token", "tok1"), ("user", "u1")]
        { status := 401, statusText := "Unauthorized",
          contentType := some "application/json",
          jsonBody := some (Json.obj [("detail", Json.str "expired")]),
          textBody := "" }).outcome.store "token" = some "tok1"
    ∧ (Api2Op.call "http://localhost:8000" Api2Op.busesGetAll
        [("token", "tok1"), ("user", "u1")]
        { status := 401, statusText := "Unauthorized",
          contentType := some "application/json",
          jsonBody := some (Json.obj [("detail", Json.str "expired")]),
          textBody := "" }).outcome.navigation = none :=
  ⟨rfl, rfl⟩

/-- C2 (amended): on a 401 response, every frontend operation that goes
through the shared ApiClient ends with neither token nor user in the
persisted store, navigation to the login page, and an error raised to the
caller; the frontend login operation raises an error but leaves the store
unchanged and does not navigate; and every operation of the second client
module raises an ApiError with status 401 while leaving the store
unchanged with no navigation. -/
theorem unauthorized_handling (baseURL : String) (op : FrontOp) (op2 : Api2Op)
    (store : Store) (r : Response) (h401 : r.status = 401) :
    (op.usesClient = true →
      Store.getItem (op.handle store r).store "token" = none
      ∧ Store.getItem (op.handle store r).store "user" = none
      ∧ (op.handle store r).navigation = some "/login"
      ∧ ∃ e, (op.handle store r).result = Except.error e)
    ∧ (op.usesClient = false →
      (op.handle store r).store = store
      ∧ (op.handle store r).navigation = none
      ∧ ∃ e, (op.handle store r).result = Except.error e)
    ∧ ((Api2Op.call baseURL op2 store r).outcome.store = store
      ∧ (Api2Op.call baseURL op2 store r).outcome.navigation = none
      ∧ (Api2Op.call baseURL op2 store r).outcome.result
          = Except.error (JsError.apiError 401 ("API request failed: " ++ r.statusText))) := by
  have hok : r.ok = false := Response.ok_of_401 r h401
  refine ⟨?_, ?_, ?_⟩
  · intro hc
    rw [FrontOp.handle_eq op hc store r]
    refine ⟨?_, ?_, handleResponse_nav_401 store r h401, ?_⟩
    · rw [handleResponse_store_401 store r h401]
      rw [Store.getItem_removeItem_ne _ _ _ (by decide)]
      exact Store.getItem_removeItem_self store "token"
    · rw [handleResponse_store_401 store r h401]
      exact Store.getItem_removeItem_self _ "user"
    · rw [handleResponse_result_err store r hok]
      exact thrownErrorFrom_isError _ r
  · intro hc
    rw [FrontOp.handle_eq_login op hc store r]
    refine ⟨?_, ?_, ?_⟩
    · simp [authAPI.loginHandle, hok]
    · simp [authAPI.loginHandle, hok]
    · have hl : (authAPI.loginHandle store r).result
          = thrownErrorFrom "Login failed" r := by
        simp [authAPI.loginHandle, hok]
      rw [hl]
      exact thrownErrorFrom_isError _ r
  · refine ⟨rfl, rfl, ?_⟩
    show (apiRequest.handle store r).result = _
    simp [apiRequest.handle, apiRequest.result, hok, h401]

/-- Witness for C2 (amended): a 401 on the frontend reservations getAll
operation clears the token and navigates to the login page. -/
theorem unauthorized_handling_witness :
    ({ status := 401, statusText := "Unauthorized",
        contentType := some "application/json",
        jsonBody := some (Json.obj [("message", Json.str "expired")]),
        textBody := "" } : Response).status = 401
    ∧ FrontOp.usesClient FrontOp.reservationsGetAll = true
    ∧ Store.getItem (FrontOp.handle FrontOp.reservationsGetAll
        [("token", "tok1"), ("user", "u1")]
        { status := 401, statusText := "Unauthorized",
          contentType := some "application/json",
          jsonBody := some (Json.obj [("message", Json.str "expired")]),
          textBody := "" }).store "token" = none
    ∧ (FrontOp.handle FrontOp.reservationsGetAll
        [("token", "tok1"), ("user", "u1")]
        { status := 401, statusText := "Unauthorized",
          contentType := some "application/json",
          jsonBody := some (Json.obj [("message", Json.str "expired")]),
          textBody := "" }).navigation = some "/login" := by
  refine ⟨rfl, rfl, ?_, ?_⟩
  · exact (((unauthorized_handling "http://localhost:8000" FrontOp.reservationsGetAll
      Api2Op.busesGetAll [("token", "tok1"), ("user", "u1")] _ rfl).1) rfl).1
  · exact (((unauthorized_handling "http://localhost:8000" FrontOp.reservationsGetAll
      Api2Op.busesGetAll [("token", "tok1"), ("user", "u1")] _ rfl).1) rfl).2.2.1

/-- Counterexample to C4 as stated: the second client module, on a 2xx
response whose content type is text/plain and whose body is not JSON,
raises a decode error instead of returning the raw response text. -/
theorem module2_2xx_text_not_returned :
    ({ status := 200, statusText := "OK", contentType := some "text/plain",
        jsonBody := none, textBody := "hello" } : Response).ok = true
    ∧ (apiRequest.handle []
        { status := 200, statusText := "OK", contentType := some "text/plain",
          jsonBody := none, textBody := "hello" }).result
      = Except.error (JsError.syntaxError "Unexpected end of JSON input")
    ∧ (apiRequest.handle []
        { status := 200, statusText := "OK", contentType := some "text/plain",
          jsonBody := none, textBody := "hello" }).result
      ≠ Except.ok (Value.text "hello") := by
  refine ⟨rfl, rfl, ?_⟩
  intro hcontra
  rw [show (apiRequest.handle []
      { status := 200, statusText := "OK", contentType := some "text/plain",
        jsonBody := none, textBody := "hello" }).result
    = Except.error (JsError.syntaxError "Unexpected end of JSON input") from rfl] at hcontra
  exact Except.noConfusion hcontra

/-- C4 (amended): for every 2xx response the frontend transport core
returns exactly the decoded JSON body when the content type contains
application/json, and the raw response text for any other or missing
content type; the second client module instead decodes the body as JSON
unconditionally, returning the decoded body exactly when it parses and
raising a decode error, rather than returning the raw text, when it does
not. -/
theorem success_decoding (store : Store) (r : Response) (hok : r.ok = true) :
    (∀ ct j, r.contentType = some ct → includesSubstr ct "application/json" = true →
        r.jsonBody = some j →
        (ApiClient.handleResponse store r).result = Except.ok (Value.json j))
    ∧ (∀ ct, r.contentType = some ct → includesSubstr ct "application/json" = false →
        (ApiClient.handleResponse store r).result = Except.ok (Value.text r.textBody))
    ∧ (r.contentType = none →
        (ApiClient.handleResponse store r).result = Except.ok (Value.text r.textBody))
    ∧ (∀ j, r.jsonBody = some j →
        (apiRequest.handle store r).result = Except.ok (Value.json j))
    ∧ (r.jsonBody = none →
        (apiRequest.handle store r).result
          = Except.error (JsError.syntaxError "Unexpected end of JSON input")) := by
  have hres : (ApiClient.handleResponse store r).result = ApiClient.successResult r := by
    simp [ApiClient.handleResponse, hok]
  refine ⟨?_, ?_, ?_, ?_, ?_⟩
  · intro ct j hct hinc hj
    rw [hres]
    simp [ApiClient.successResult, hct, hinc, hj]
  · intro ct hct hinc
    rw [hres]
    simp [ApiClient.successResult, hct, hinc]
  · intro hct
    rw [hres]
    simp [ApiClient.successResult, hct]
  · intro j hj
    simp [apiRequest.handle, apiRequest.result, hok, hj]
  · intro hj
    simp [apiRequest.handle, apiRequest.result, hok, hj]

/-- Witness for C4 (amended) at a concrete 200 JSON response. -/
theorem success_decoding_witness :
    ({ status := 200, statusText := "OK",
        contentType := some "application/json",
        jsonBody := some (Json.arr [Json.num 1, Json.num 2]),
        textBody := "[1,2]" } : Response).ok = true
    ∧ includesSubstr "application/json" "application/json" = true
    ∧ (ApiClient.handleResponse []
        { status := 200, statusText := "OK",
          contentType := some "application/json",
          jsonBody := some (Json.arr [Json.num 1, Json.num 2]),
          textBody := "[1,2]" }).result
      = Except.ok (Value.json (Json.arr [Json.num 1, Json.num 2])) := by
  refine ⟨rfl, rfl, ?_⟩
  exact (success_decoding []
    { status := 200, statusText := "OK",
      contentType := some "application/json",
      jsonBody := some (Json.arr [Json.num 1, Json.num 2]),
      textBody := "[1,2]" } rfl).1 "application/json" (Json.arr [Json.num 1, Json.num 2])
    rfl rfl rfl

/-- Whether a request carries a form-encoded body. -/
def Request.hasFormBody (req : Request) : Bool :=
  match req.body with
  | some b => b.isForm
  | none => false

/-- Counterexample to C7 as stated: the login operation of the second
client module POSTs the credentials to the login endpoint as a JSON body,
not form-encoded. -/
theorem module2_login_sends_json :
    (Api2Op.request "http://localhost:8000"
        (Api2Op.authLogin "user@example.com" "secret")).url
      = "http://localhost:8000/api/auth/login"
    ∧ (Api2Op.request "http://localhost:8000"
        (Api2Op.authLogin "user@example.com" "secret")).method = "POST"
    ∧ (Api2Op.request "http://localhost:8000"
        (Api2Op.authLogin "user@example.com" "secret")).body
      = some (Body.json (Json.obj [("email", Json.str "user@example.com"),
                                   ("password", Json.str "secret")]))
    ∧ (Api2Op.request "http://localhost:8000"
        (Api2Op.authLogin "user@example.com" "secret")).hasFormBody = false :=
  ⟨rfl, rfl, rfl, rfl⟩

/-- C7 (amended): the frontend login operation POSTs the supplied
credentials as a form-encoded body with a form-urlencoded content type to
the login endpoint and on success returns the decoded JSON body carrying
the token and principal; the login operation of the second client module
POSTs a JSON body with the email and password fields to the same
endpoint. -/
theorem login_request_shape (baseURL : String) (u p e pw : String) (store : Store)
    (r : Response) :
    (authAPI.login baseURL u p).url = baseURL ++ "/api/auth/login"
    ∧ (authAPI.login baseURL u p).method = "POST"
    ∧ (authAPI.login baseURL u p).headers
        = [("Content-Type", "application/x-www-form-urlencoded")]
    ∧ (authAPI.login baseURL u p).body
        = some (Body.form [("username", u), ("password", p)])
    ∧ (∀ j, r.ok = true → r.jsonBody = some j →
        (authAPI.loginHandle store r).result = Except.ok (Value.json j))
    ∧ (Api2Op.request baseURL (Api2Op.authLogin e pw)).url
        = baseURL ++ "/api/auth/login"
    ∧ (Api2Op.request baseURL (Api2Op.authLogin e pw)).method = "POST"
    ∧ (Api2Op.request baseURL (Api2Op.authLogin e pw)).body
        = some (Body.json (Json.obj [("email", Json.str e),
                                     ("password", Json.str pw)])) := by
  refine ⟨rfl, rfl, rfl, rfl, ?_, rfl, rfl, rfl⟩
  intro j hok hj
  simp [authAPI.loginHandle, hok, hj]

/-- Witness for C7 (amended): a successful login response is returned
decoded. -/
theorem login_request_shape_witness :
    ({ status := 200, statusText := "OK",
        contentType := some "application/json",
        jsonBody := some (Json.obj [("access_token", Json.str "tok1")]),
        textBody := "" } : Response).ok = true
    ∧ (authAPI.login "http://localhost:8000" "alice" "pw1").body
        = some (Body.form [("username", "alice"), ("password", "pw1")])
    ∧ (authAPI.loginHandle []
        { status := 200, statusText := "OK",
          contentType := some "application/json",
          jsonBody := some (Json.obj [("access_token", Json.str "tok1")]),
          textBody := "" }).result
      = Except.ok (Value.json (Json.obj [("access_token", Json.str "tok1")])) := by
  refine ⟨rfl, ?_, ?_⟩
  · exact (login_request_shape "http://localhost:8000" "alice" "pw1" "e" "pw" []
      { status := 200, statusText := "OK",
        contentType := some "application/json",
        jsonBody := some (Json.obj [("access_token", Json.str "tok1")]),
        textBody := "" }).2.2.2.1
  · exact (login_request_shape "http://localhost:8000" "alice" "pw1" "e" "pw" []
      { status := 200, statusText := "OK",
        contentType := some "application/json",
        jsonBody := some (Json.obj [("access_token", Json.str "tok1")]),
        textBody := "" }).2.2.2.2.1 (Json.obj [("access_token", Json.str "tok1")]) rfl rfl

/-- Whether a JSON value is an object whose status field is the string
confirmed. -/
def Json.isConfirmed : Json → Bool
  | Json.obj fields =>
      match fields.lookup "status" with
      | some (Json.str s) => s == "confirmed"
      | _ => false
  | _ => false

/-- C6: the frontend reservation create operation POSTs the bus id, seat
list and date to the reservations collection endpoint, and when the
backend replies with a JSON array holding one confirmed reservation
record per requested seat, the caller receives exactly that array. -/
theorem reservation_create_roundtrip (baseURL : String) (store : Store)
    (data : ReservationCreate) (r : Response) (rs : List Json)
    (hok : r.ok = true) (hct : r.contentType = some "application/json")
    (hbody : r.jsonBody = some (Json.arr rs))
    (hlen : rs.length = data.seat_numbers.length)
    (hconf : ∀ j ∈ rs, Json.isConfirmed j = true) :
    (reservationAPI.create baseURL store data).method = "POST"
    ∧ (reservationAPI.create baseURL store data).url = baseURL ++ "/api/reservations/"
    ∧ (reservationAPI.create baseURL store data).body
        = some (Body.json (Json.obj
            [("bus_id", Json.num data.bus_id),
             ("seat_numbers", Json.arr (data.seat_numbers.map Json.str)),
             ("reservation_date", Json.str data.reservation_date)]))
    ∧ (ApiClient.handleResponse store r).result = Except.ok (Value.json (Json.arr rs))
    ∧ rs.length = data.seat_numbers.length
    ∧ (∀ j ∈ rs, Json.isConfirmed j = true) := by
  refine ⟨rfl, rfl, rfl, ?_, hlen, hconf⟩
  have hinc : includesSubstr "application/json" "application/json" = true := rfl
  simp [ApiClient.handleResponse, hok, ApiClient.successResult, hct, hinc, hbody]

/-- Witness for C6 at the spec scenario: creating with two seat numbers
and a backend reply of two confirmed records returns that two-element
array. -/
theorem reservation_create_roundtrip_witness :
    (∀ j ∈ [Json.obj [("id", Json.num 10), ("user_id", Json.num 3),
              ("bus_id", Json.num 1), ("seat_number", Json.str "A1"),
              ("reservation_date", Json.str "2024-01-15"),
              ("status", Json.str "confirmed")],
            Json.obj [("id", Json.num 11), ("user_id", Json.num 3),
              ("bus_id", Json.num 1), ("seat_number", Json.str "A2"),
              ("reservation_date", Json.str "2024-01-15"),
              ("status", Json.str "confirmed")]], Json.isConfirmed j = true)
    ∧ (reservationAPI.create "http://localhost:8000" []
        ⟨1, ["A1", "A2"], "2024-01-15"⟩).url
      = "http://localhost:8000/api/reservations/"
    ∧ (ApiClient.handleResponse []
        { status := 200, statusText := "OK",
          contentType := some "application/json",
          jsonBody := some (Json.arr
            [Json.obj [("id", Json.num 10), ("user_id", Json.num 3),
              ("bus_id", Json.num 1), ("seat_number", Json.str "A1"),
              ("reservation_date", Json.str "2024-01-15"),
              ("status", Json.str "confirmed")],
             Json.obj [("id", Json.num 11), ("user_id", Json.num 3),
              ("bus_id", Json.num 1), ("seat_number", Json.str "A2"),
              ("reservation_date", Json.str "2024-01-15"),
              ("status", Json.str "confirmed")]]),
          textBody := "" }).result
      = Except.ok (Value.json (Json.arr
            [Json.obj [("id", Json.num 10), ("user_id", Json.num 3),
              ("bus_id", Json.num 1), ("seat_number", Json.str "A1"),
              ("reservation_date", Json.str "2024-01-15"),
              ("status", Json.str "confirmed")],
             Json.obj [("id", Json.num 11), ("user_id", Json.num 3),
              ("bus_id", Json.num 1), ("seat_number", Json.str "A2"),
              ("reservation_date", Json.str "2024-01-15"),
              ("status", Json.str "confirmed")]])) := by
  refine ⟨by decide, ?_, ?_⟩
  · exact (reservation_create_roundtrip "http://localhost:8000" []
      ⟨1, ["A1", "A2"], "2024-01-15"⟩
      { status := 200, statusText := "OK",
        contentType := some "application/json",
        jsonBody := some (Json.arr
          [Json.obj [("id", Json.num 10), ("user_id", Json.num 3),
            ("bus_id", Json.num 1), ("seat_number", Json.str "A1"),
            ("reservation_date", Json.str "2024-01-15"),
            ("status", Json.str "confirmed")],
           Json.obj [("id", Json.num 11), ("user_id", Json.num 3),
            ("bus_id", Json.num 1), ("seat_number", Json.str "A2"),
            ("reservation_date", Json.str "2024-01-15"),
            ("status", Json.str "confirmed")]]),
        textBody := "" }
      [Json.obj [("id", Json.num 10), ("user_id", Json.num 3),
        ("bus_id", Json.num 1), ("seat_number", Json.str "A1"),
        ("reservation_date", Json.str "2024-01-15"),
        ("status", Json.str "confirmed")],
       Json.obj [("id", Json.num 11), ("user_id", Json.num 3),
        ("bus_id", Json.num 1), ("seat_number", Json.str "A2"),
        ("reservation_date", Json.str "2024-01-15"),
        ("status", Json.str "confirmed")]]
      rfl rfl rfl rfl (by decide)).2.1
  · exact (reservation_create_roundtrip "http://localhost:8000" []
      ⟨1, ["A1", "A2"], "2024-01-15"⟩
      { status := 200, statusText := "OK",
        contentType := some "application/json",
        jsonBody := some (Json.arr
          [Json.obj [("id", Json.num 10), ("user_id", Json.num 3),
            ("bus_id", Json.num 1), ("seat_number", Json.str "A1"),
            ("reservation_date", Json.str "2024-01-15"),
            ("status", Json.str "confirmed")],
           Json.obj [("id", Json.num 11), ("user_id", Json.num 3),
            ("bus_id", Json.num 1), ("seat_number", Json.str "A2"),
            ("reservation_date", Json.str "2024-01-15"),
            ("status", Json.str "confirmed")]]),
        textBody := "" }
      [Json.obj [("id", Json.num 10), ("user_id", Json.num 3),
        ("bus_id", Json.num 1), ("seat_number", Json.str "A1"),
        ("reservation_date", Json.str "2024-01-15"),
        ("status", Json.str "confirmed")],
       Json.obj [("id", Json.num 11), ("user_id", Json.num 3),
        ("bus_id", Json.num 1), ("seat_number", Json.str "A2"),
        ("reservation_date", Json.str "2024-01-15"),
        ("status", Json.str "confirmed")]]
      rfl rfl rfl rfl (by decide)).2.2.2.1
